import Mathlib

/-!
Shallow embedding of the `httptrace` package (OpenCensus tracing integration
for net/http): the header codec `spanContextToHeader` / `traceInfoFromHeader`
and the two middleware adapters `RoundTrip` / `ServeHTTP`.

Bytes are modelled as `Nat` values below 256; Go strings as Lean `String`
(split and matched at `Char` level, which agrees with Go's byte-level
operations because every separator searched for is a single ASCII byte and
UTF-8 never embeds an ASCII byte inside a multi-byte rune). A Go runtime
panic is modelled as `none` in an `Option` result.
-/

namespace HttpTrace

/-- Byte length of a Go string (Go `len` counts UTF-8 bytes). -/
def goLen (h : String) : Nat := (h.data.map Char.utf8Size).sum

/-- `strings.Index` plus the two slices `h[:i]`, `h[i+1:]`: split a list at the
first occurrence of `c`, returning the parts before and after it. -/
def splitFirst (c : Char) : List Char → Option (List Char × List Char)
  | [] => none
  | x :: xs =>
    if x = c then some ([], xs)
    else
      match splitFirst c xs with
      | none => none
      | some (a, b) => some (x :: a, b)

/-- Value of one hex digit, as accepted by Go `encoding/hex` (0-9, a-f, A-F). -/
def hexDigitVal (c : Char) : Option Nat :=
  if '0' ≤ c ∧ c ≤ '9' then some (c.toNat - '0'.toNat)
  else if 'a' ≤ c ∧ c ≤ 'f' then some (c.toNat - 'a'.toNat + 10)
  else if 'A' ≤ c ∧ c ≤ 'F' then some (c.toNat - 'A'.toNat + 10)
  else none

/-- `hex.DecodeString`: decode pairs of hex digits into bytes; `none` on an
odd-length input or any non-hex character (the Go function returns an error
in exactly those cases). -/
def hexDecodeList : List Char → Option (List Nat)
  | [] => some []
  | [_] => none
  | a :: b :: rest =>
    match hexDigitVal a, hexDigitVal b, hexDecodeList rest with
    | some hi, some lo, some tl => some ((hi * 16 + lo) :: tl)
    | _, _, _ => none

/-- Lowercase hex character for a value below 16 (Go `encoding/hex` alphabet). -/
def hexCharOf (n : Nat) : Char :=
  if n < 10 then Char.ofNat ('0'.toNat + n) else Char.ofNat ('a'.toNat + n - 10)

/-- `hex.EncodeToString`: two lowercase hex characters per byte. -/
def hexEncodeList (bs : List Nat) : List Char :=
  bs.flatMap fun b => [hexCharOf (b / 16), hexCharOf (b % 16)]

/-- Value of one decimal digit. -/
def decDigitVal (c : Char) : Option Nat :=
  if '0' ≤ c ∧ c ≤ '9' then some (c.toNat - '0'.toNat) else none

/-- Decimal value of a digit string, `none` if any character is not a digit. -/
def parseDecDigits (cs : List Char) : Option Nat :=
  cs.foldl
    (fun acc c =>
      match acc, decDigitVal c with
      | some a, some d => some (a * 10 + d)
      | _, _ => none)
    (some 0)

/-- `strconv.ParseUint(s, 10, 64)`: `none` on the empty string, on any
non-digit character (no sign, no underscores in base 10), and on overflow
past `2^64 - 1` (Go reports `ErrRange` there). -/
def parseUint64 (cs : List Char) : Option Nat :=
  if cs = [] then none
  else
    match parseDecDigits cs with
    | none => none
    | some v => if v < 2 ^ 64 then some v else none

/-- Little-endian base-128 variable-length encoding of a `Nat`, as written by
`binary.PutUvarint`: 7 bits per byte, high bit set on every byte but the
last. Fuel-based so the kernel can evaluate it; 10 levels cover every value
below `2^64` (and every value reaching this function is below `2^64`). -/
def uvarintEncodeAux : Nat → Nat → List Nat
  | 0, x => [x % 128]
  | fuel + 1, x =>
    if x < 128 then [x] else (x % 128 + 128) :: uvarintEncodeAux fuel (x / 128)

/-- Bytes written by `binary.PutUvarint(buf, x)` (before considering whether
they fit in `buf`). -/
def uvarintEncode (x : Nat) : List Nat := uvarintEncodeAux 10 x

/-- `binary.Uvarint` on a byte slice: accumulate 7-bit groups until a byte
without the continuation bit; an exhausted buffer yields 0 (Go returns
`(0, 0)` there). The uint64-overflow checks of the Go function are
unreachable for the 8-byte buffers this package feeds it. -/
def uvarintDecodeAux : List Nat → Nat → Nat → Nat
  | [], _, _ => 0
  | b :: rest, shift, acc =>
    if b < 128 then acc + b * 2 ^ shift
    else uvarintDecodeAux rest (shift + 7) (acc + (b % 128) * 2 ^ shift)

/-- The uint64 read by `binary.Uvarint` from a byte slice. -/
def uvarintDecode (bs : List Nat) : Nat := uvarintDecodeAux bs 0 0

/-- Go `copy(dst[:], buf)` into a zero-valued `[n]byte` array: the first `n`
bytes of `buf`, zero-padded when `buf` is shorter than `n`. -/
def goCopy (n : Nat) (buf : List Nat) : List Nat :=
  buf.take n ++ List.replicate (n - buf.length) 0

/-- Decimal digit characters of `n`, most significant first, as produced by
`strconv.FormatUint(n, 10)`. Fuel-based; 20 digits cover every value below
`2^64`. -/
def decDigitsAux : Nat → Nat → List Char → List Char
  | 0, _, acc => acc
  | fuel + 1, n, acc =>
    if n = 0 then acc
    else decDigitsAux fuel (n / 10) (Char.ofNat ('0'.toNat + n % 10) :: acc)

/-- `strconv.FormatUint(n, 10)` as a character list. -/
def decimalOf (n : Nat) : List Char :=
  if n = 0 then ['0'] else decDigitsAux 20 n []

/-- `trace.SpanContext`: a 16-byte trace id, an 8-byte span id and a uint32
options word. -/
structure SpanContext where
  traceID : List Nat
  spanID : List Nat
  traceOptions : Nat
deriving DecidableEq, Repr

/-- The five results of `traceInfoFromHeader`: trace id, span id, options,
whether an options field was parsed, and overall validity. -/
structure TraceInfo where
  traceID : List Nat
  spanID : List Nat
  options : Nat
  optionsOk : Bool
  ok : Bool
deriving DecidableEq, Repr

/-- The zero-valued result every failing path of `traceInfoFromHeader`
returns: `trace.TraceID{}, trace.SpanID{}, 0, false, false`. -/
def zeroInfo : TraceInfo :=
  ⟨List.replicate 16 0, List.replicate 8 0, 0, false, false⟩

/-- The span-id / options split of the text after the `/`: at the first `;`
when one is present; with no `;` the whole remainder is the span-id field
and the variable `h` of the source keeps its old value (so the options text
equals the span-id text, exactly as in the source). -/
def spanSplit (afterSlash : List Char) : List Char × List Char :=
  match splitFirst ';' afterSlash with
  | none => (afterSlash, afterSlash)
  | some q => q

/-- `traceInfoFromHeader` from the source. `none` models the Go runtime panic
raised by `binary.PutUvarint` when the parsed span id needs more than the 8
bytes of `buf` (which happens exactly when the uvarint encoding is longer
than 8 bytes, i.e. the value is at least `2^56`). -/
def traceInfoFromHeader (h : String) : Option TraceInfo :=
  if h.data = [] ∨ 200 < goLen h then some zeroInfo
  else
    match splitFirst '/' h.data with
    | none => some zeroInfo
    | some (tid, afterSlash) =>
      match hexDecodeList tid with
      | none => some zeroInfo
      | some buf =>
        match parseUint64 (spanSplit afterSlash).1 with
        | none => some zeroInfo
        | some sid =>
          if 8 < (uvarintEncode sid).length then none
          else if (['o', '='].isPrefixOf (spanSplit afterSlash).2) = false then
            some ⟨goCopy 16 buf, goCopy 8 (uvarintEncode sid), 0, false, true⟩
          else
            match parseUint64 ((spanSplit afterSlash).2.drop 2) with
            | none => some zeroInfo
            | some o =>
              some ⟨goCopy 16 buf, goCopy 8 (uvarintEncode sid), o % 2 ^ 32,
                true, true⟩

/-- `spanContextToHeader` from the source:
`hex(TraceID) + "/" + FormatUint(Uvarint(SpanID), 10) + ";" + FormatInt(int64(TraceOptions), 10)`. -/
def spanContextToHeader (sc : SpanContext) : String :=
  String.mk
    (hexEncodeList sc.traceID ++
      '/' :: decimalOf (uvarintDecode sc.spanID) ++
        ';' :: decimalOf sc.traceOptions)

/-- `strings.Replace(s, old, new, -1)` for non-empty `old`: replace every
non-overlapping occurrence of `old`, scanning left to right. Fuel-based on
the length of `s` (each step consumes at least one character). -/
def replaceAllAux (old new : List Char) : Nat → List Char → List Char
  | 0, s => s
  | _ + 1, [] => []
  | fuel + 1, c :: rest =>
    if old.isPrefixOf (c :: rest) then
      new ++ replaceAllAux old new fuel (rest.drop (old.length - 1))
    else c :: replaceAllAux old new fuel rest

/-- `strings.Replace(s, old, new, -1)`. For empty `old` Go inserts `new`
before every rune and at the end. -/
def replaceAll (s old new : List Char) : List Char :=
  if old = [] then new ++ s.flatMap (fun c => c :: new)
  else replaceAllAux old new s.length s

/-- The span name computed by both adapters:
`pre + strings.Replace(url, scheme, ".", -1)` with `pre` being `"Sent"` or
`"Recv"`. -/
def spanName (pre url scheme : String) : String :=
  pre ++ String.mk (replaceAll url.data scheme.data ['.'])

/-- The observable events of one adapter invocation: starting a span, ending
a span, and anything the wrapped sender/handler itself does. -/
inductive Ev where
  | startSpan (name : String)
  | endSpan
  | other (tag : Nat)
deriving DecidableEq, Repr

/-- The parts of an `http.Request` the adapters look at: the target URL
string, its scheme, and the `X-Cloud-Trace-Context` header value (`none`
when absent; `Header.Get` then returns the empty string). -/
structure Request where
  url : String
  scheme : String
  header : Option String
deriving DecidableEq, Repr

/-- `(*Transport).RoundTrip` from the source, with the externally-owned
tracing engine abstracted: `sc` is the `SpanContext` of the span that
`trace.StartSpan` creates, and the base round tripper is a function from the
(header-augmented) request and the event log so far to a response, an error
and the extended log. The adapter logs `Ev.startSpan` before delegating,
sets the encoded header on the delegated request, logs `Ev.endSpan` after
the base call returns, and passes the base call's response and error
through. -/
def roundTrip {α : Type} (base : Request → List Ev → α × Option String × List Ev)
    (sc : SpanContext) (req : Request) (log : List Ev) :
    (α × Option String) × List Ev :=
  let name := spanName "Sent" req.url req.scheme
  let log1 := log ++ [Ev.startSpan name]
  let req1 : Request := { req with header := some (spanContextToHeader sc) }
  let r := base req1 log1
  ((r.1, r.2.1), r.2.2 ++ [Ev.endSpan])

/-- The kind of span the inbound adapter starts: with a decoded remote
parent, or a root span. -/
inductive SpanKindOf where
  | remoteParent (traceID spanID : List Nat) (options : Nat)
  | root
deriving DecidableEq, Repr

/-- What the wrapped handler observes when it is invoked: the span name and
the span placed in the request context. -/
structure HandlerCall where
  name : String
  span : SpanKindOf
deriving DecidableEq, Repr

/-- `(*handler).ServeHTTP` from the source, up to the invocation of the
wrapped handler: decode the header (`Header.Get` yields `""` when the header
is absent); on `ok` start a span with the decoded values as remote parent,
otherwise start a root span; then invoke the wrapped handler with that span
in its context. `none` models the decoder's panic propagating, in which case
the handler is never invoked. -/
def serveHTTP (req : Request) : Option HandlerCall :=
  let name := spanName "Recv" req.url req.scheme
  let hdr := match req.header with | none => "" | some s => s
  match traceInfoFromHeader hdr with
  | none => none
  | some info =>
    if info.ok then
      some ⟨name, SpanKindOf.remoteParent info.traceID info.spanID info.options⟩
    else
      some ⟨name, SpanKindOf.root⟩

/-- A stub base round tripper used to instantiate theorems about
`roundTrip`: it returns response `7` and the error message `"noop"`, and
appends one event of its own to the log. -/
def stubBase : Request → List Ev → Nat × Option String × List Ev :=
  fun _ l => (7, some "noop", l ++ [Ev.other 0])

/-- The TraceID bytes of the worked example in the spec and the repository's
tests: `10 54 45 aa 78 43 bc 8b f2 06 b1 20 00 10 00 00`. -/
def tidEx : List Nat := [16, 84, 69, 170, 120, 67, 188, 139, 242, 6, 177, 32, 0, 16, 0, 0]

/-- The SpanContext of the worked example: TraceID `tidEx`, the SpanID bytes
`binary.PutUvarint` writes for 123 into an 8-byte buffer, TraceOptions 1. -/
def scEx : SpanContext := ⟨tidEx, [123, 0, 0, 0, 0, 0, 0, 0], 1⟩

theorem spanSplit_of_some (a : List Char) (q : List Char × List Char)
    (h : splitFirst ';' a = some q) : spanSplit a = q := by
  unfold spanSplit
  rw [h]

/-- Every `ok = false` result of the decoder is the zero-valued one: each
early-return path of the source constructs fresh zero values. -/
theorem ok_false_eq_zeroInfo (h : String) (info : TraceInfo)
    (hsome : traceInfoFromHeader h = some info) (hok : info.ok = false) :
    info = zeroInfo := by
  unfold traceInfoFromHeader at hsome
  split at hsome
  · cases hsome; rfl
  · split at hsome
    · cases hsome; rfl
    · split at hsome
      · cases hsome; rfl
      · split at hsome
        · cases hsome; rfl
        · split at hsome
          · exact Option.noConfusion hsome
          · split at hsome
            · cases hsome; simp [zeroInfo] at hok
            · split at hsome
              · cases hsome; rfl
              · cases hsome; simp [zeroInfo] at hok

/-- Claim C1: the round-trip law `Decode(Encode(sc)) == (sc, true)` fails on
the code. For the worked example SpanContext (TraceOptions 1), the encoder
emits the options separated by a bare `;` with no `o=` prefix, so the
decoder treats the options field as absent and returns TraceOptions 0
instead of 1: the TraceID and SpanID come back identical but the
TraceOptions value is lost. The repository's own `TestSpanContext` requires
the `o=` form, so this is a defect of the encoder, not of the claim. -/
theorem roundtrip_drops_traceOptions :
    scEx.traceOptions = 1 ∧
    traceInfoFromHeader (spanContextToHeader scEx) =
      some ⟨scEx.traceID, scEx.spanID, 0, false, true⟩ := by decide

/-- Claim C2: `Decode` is claimed never to panic, but the source calls
`binary.PutUvarint` with an 8-byte buffer, which panics whenever the parsed
span id needs more than 8 uvarint bytes, i.e. for any value at least `2^56`.
The header below carries the valid base-10 uint64 `2^56` in its span-id
field and makes the decoder panic (modelled as `none`); the second conjunct
records that the field itself parses fine as a uint64, so the panic is not a
parse rejection. -/
theorem decode_large_spanid_panics :
    traceInfoFromHeader "105445aa7843bc8bf206b12000100000/72057594037927936" =
      none ∧
    parseUint64 "72057594037927936".data = some 72057594037927936 := by decide

/-- Claim C3: the encoder is claimed (by the spec and by the repository's
`TestSpanContext`) to separate the options with the literal `;o=`, producing
`"105445aa7843bc8bf206b12000100000/123;o=1"` on the worked example. The
source concatenates only `";"`, so the actual output drops the `o=`. -/
theorem encode_example_output :
    spanContextToHeader scEx = "105445aa7843bc8bf206b12000100000/123;1" ∧
    spanContextToHeader scEx ≠ "105445aa7843bc8bf206b12000100000/123;o=1" := by
  decide

/-- Claim C4 counterexample: `"ab"` hex-decodes to the single byte 171 — not
16 bytes — yet decoding `"ab/1"` succeeds with `ok = true`, zero-padding the
TraceID, which refutes the claim that a wrong decoded byte count is
rejected. -/
theorem decode_short_traceid_accepted :
    hexDecodeList ['a', 'b'] = some [171] ∧
    traceInfoFromHeader "ab/1" =
      some ⟨171 :: List.replicate 15 0, 1 :: List.replicate 7 0, 0, false,
        true⟩ := by decide

/-- Claim C4 as amended: if hex decoding of the text before the `/` fails
(odd length or a non-hex character) the whole decode is invalid and returns
the zero result; but a successful hex decode of any byte count is accepted —
every `ok = true` result carries the decoded bytes copied into the 16-byte
TraceID (truncated past 16, zero-padded when short). -/
theorem traceid_hex_decode_behavior (h : String) (tid rest : List Char)
    (hsplit : splitFirst '/' h.data = some (tid, rest)) :
    (hexDecodeList tid = none → traceInfoFromHeader h = some zeroInfo) ∧
    (∀ buf info, hexDecodeList tid = some buf →
      traceInfoFromHeader h = some info → info.ok = true →
      info.traceID = goCopy 16 buf) := by
  constructor
  · intro hx
    simp [traceInfoFromHeader, hsplit, hx]
  · intro buf info hx hsome hok
    simp only [traceInfoFromHeader, hsplit, hx] at hsome
    split at hsome
    · cases hsome; simp [zeroInfo] at hok
    · split at hsome
      · cases hsome; simp [zeroInfo] at hok
      · split at hsome
        · exact Option.noConfusion hsome
        · split at hsome
          · cases hsome; rfl
          · split at hsome
            · cases hsome; simp [zeroInfo] at hok
            · cases hsome; rfl

/-- Claim C4 witness: instantiating the amended theorem at `"zz/1"`, whose
TraceID text is not hex. -/
theorem traceid_hex_decode_behavior_w :
    traceInfoFromHeader "zz/1" = some zeroInfo :=
  (traceid_hex_decode_behavior "zz/1" ['z', 'z'] ['1'] (by decide)).1 (by decide)

/-- Claim C5 counterexample: in `"/1;x"` an options field `"x"` is present
(there is a `;` after the span-id field) and does not start with `o=`, yet
decoding succeeds with `ok = true` (options treated as absent), which
refutes the claim that such input yields `ok = false`. -/
theorem decode_non_o_options_accepted :
    (['o', '='].isPrefixOf ['x']) = false ∧
    traceInfoFromHeader "/1;x" =
      some ⟨List.replicate 16 0, 1 :: List.replicate 7 0, 0, false, true⟩ := by
  decide

/-- Claim C5 as amended: when an options field is present (a `;` follows the
span-id field) and all earlier stages succeed, an options field that starts
with `o=` but whose remainder does not parse as a base-10 uint64 makes the
decode invalid, while an options field that does not start with `o=` does
not invalidate anything — the decode succeeds with options 0 and
`optionsOk = false`. -/
theorem options_field_behavior (h : String) (tid rest spanstr opts : List Char)
    (buf : List Nat) (sid : Nat)
    (hlen : goLen h ≤ 200)
    (hsplit : splitFirst '/' h.data = some (tid, rest))
    (hsemi : splitFirst ';' rest = some (spanstr, opts))
    (hhex : hexDecodeList tid = some buf)
    (hsid : parseUint64 spanstr = some sid)
    (hfit : (uvarintEncode sid).length ≤ 8) :
    ((['o', '='].isPrefixOf opts) = false →
      traceInfoFromHeader h =
        some ⟨goCopy 16 buf, goCopy 8 (uvarintEncode sid), 0, false, true⟩) ∧
    ((['o', '='].isPrefixOf opts) = true → parseUint64 (opts.drop 2) = none →
      traceInfoFromHeader h = some zeroInfo) := by
  have hne : ¬(h.data = [] ∨ 200 < goLen h) := by
    rintro (he | hl)
    · rw [he] at hsplit
      exact Option.noConfusion hsplit
    · omega
  have hspan : spanSplit rest = (spanstr, opts) := spanSplit_of_some rest _ hsemi
  constructor
  · intro hp
    simp only [traceInfoFromHeader, if_neg hne, hsplit, hhex, hspan, hsid, hp]
    rw [if_neg (by omega)]
    simp
  · intro hp hn
    simp only [traceInfoFromHeader, if_neg hne, hsplit, hhex, hspan, hsid, hp,
      hn]
    rw [if_neg (by omega)]
    simp

/-- Claim C5 witness: instantiating the amended theorem at `"/1;o=z"`, whose
options field has the `o=` prefix but a non-numeric remainder. -/
theorem options_field_behavior_w :
    traceInfoFromHeader "/1;o=z" = some zeroInfo :=
  (options_field_behavior "/1;o=z" [] ['1', ';', 'o', '=', 'z'] ['1']
    ['o', '=', 'z'] [] 1 (by decide) (by decide) (by decide) (by decide)
    (by decide) (by decide)).2 (by decide) (by decide)

/-- Claim C6: decode failure is atomic. Every returned result with
`ok = false` is exactly the zero result (zero TraceID, zero SpanID, zero
options) — no partially populated field ever escapes — and each of the
claim's listed failure classes does return `ok = false` with the zero
result: the empty string, any string of byte length above 200, any string
with no `/`, any string whose TraceID text is not valid hex, and any string
whose span-id field does not parse as a base-10 uint64. -/
theorem decode_failure_atomic :
    (∀ h info, traceInfoFromHeader h = some info → info.ok = false →
      info = zeroInfo) ∧
    traceInfoFromHeader "" = some zeroInfo ∧
    (∀ h, 200 < goLen h → traceInfoFromHeader h = some zeroInfo) ∧
    (∀ h, splitFirst '/' h.data = none → traceInfoFromHeader h = some zeroInfo) ∧
    (∀ h tid rest, splitFirst '/' h.data = some (tid, rest) →
      hexDecodeList tid = none → traceInfoFromHeader h = some zeroInfo) ∧
    (∀ h tid rest, splitFirst '/' h.data = some (tid, rest) →
      parseUint64 (spanSplit rest).1 = none →
      traceInfoFromHeader h = some zeroInfo) := by
  refine ⟨ok_false_eq_zeroInfo, by decide, ?_, ?_, ?_, ?_⟩
  · intro h hl
    unfold traceInfoFromHeader
    rw [if_pos (Or.inr hl)]
  · intro h hs
    simp [traceInfoFromHeader, hs]
  · intro h tid rest hs hx
    simp [traceInfoFromHeader, hs, hx]
  · intro h tid rest hs hp
    simp only [traceInfoFromHeader, hs, hp]
    split
    · rfl
    · split
      · rfl
      · rfl

/-- Claim C6 witness: instantiating the no-`/` case at `"abc"`. -/
theorem decode_failure_atomic_w :
    traceInfoFromHeader "abc" = some zeroInfo :=
  decode_failure_atomic.2.2.2.1 "abc" (by decide)

/-- Claim C7: for one outbound request, `RoundTrip` logs the span start
strictly before the delegated call to the base round tripper (whose own
events form `tail`), logs the span end strictly after the base call
returned — unconditionally, whatever the error value `err` is — and returns
the base round tripper's response and error unchanged. -/
theorem roundTrip_ordering_passthrough {α : Type}
    (base : Request → List Ev → α × Option String × List Ev)
    (sc : SpanContext) (req : Request) (log : List Ev)
    (resp : α) (err : Option String) (tail : List Ev)
    (hbase : base { req with header := some (spanContextToHeader sc) }
        (log ++ [Ev.startSpan (spanName "Sent" req.url req.scheme)]) =
      (resp, err,
        (log ++ [Ev.startSpan (spanName "Sent" req.url req.scheme)]) ++ tail)) :
    roundTrip base sc req log =
      ((resp, err),
        (log ++ [Ev.startSpan (spanName "Sent" req.url req.scheme)]) ++
          (tail ++ [Ev.endSpan])) := by
  simp only [roundTrip, hbase]
  simp

/-- Claim C7 witness: instantiating the theorem with the stub base round
tripper, which returns response 7 with a non-nil error and logs one event
of its own. -/
theorem roundTrip_ordering_passthrough_w :
    roundTrip stubBase scEx ⟨"http://foo.com", "http", none⟩ [] =
      (((7 : Nat), some "noop"),
        ([] ++ [Ev.startSpan (spanName "Sent" "http://foo.com" "http")]) ++
          ([Ev.other 0] ++ [Ev.endSpan])) :=
  roundTrip_ordering_passthrough stubBase scEx ⟨"http://foo.com", "http", none⟩
    [] 7 (some "noop") [Ev.other 0] rfl

/-- Claim C8: the inbound adapter is claimed always to invoke the wrapped
handler with some span in the context, but a request whose propagation
header carries the span-id value `2^56` makes the header decoding panic
inside `ServeHTTP` (the `binary.PutUvarint` buffer overflow of claim C2), so
the handler is never invoked at all: the model returns `none` instead of a
`HandlerCall`. -/
theorem serveHTTP_large_spanid_panics :
    serveHTTP
      ⟨"/", "",
        some "105445aa7843bc8bf206b12000100000/72057594037927936"⟩ =
      none := by decide

/-- Claim C9 counterexample: the claimed span name `"Sent.foo.com"` for a
request to `"http://foo.com"` with scheme `http` is not what the code
computes. -/
theorem span_name_example_ne_spec :
    spanName "Sent" "http://foo.com" "http" ≠ "Sent.foo.com" := by decide

/-- Claim C9 as amended: the span name replaces every occurrence of the
scheme substring with `"."` but keeps the `"://"` separator, so a request to
`"http://foo.com"` with scheme `http` yields `"Sent.://foo.com"` outbound
and `"Recv.://foo.com"` inbound. -/
theorem span_name_example_actual :
    spanName "Sent" "http://foo.com" "http" = "Sent.://foo.com" ∧
    spanName "Recv" "http://foo.com" "http" = "Recv.://foo.com" := by decide

/-- Claim C10: the encoder is not injective on SpanID. The all-zero SpanID
and the SpanID whose 8 bytes all have the continuation bit set (value 128)
are distinct, but `binary.Uvarint` reads 0 from both (an incomplete uvarint
yields 0), so both SpanContexts encode to the identical header string. -/
theorem encode_spanid_not_injective :
    (List.replicate 8 0 : List Nat) ≠ List.replicate 8 128 ∧
    spanContextToHeader ⟨tidEx, List.replicate 8 0, 1⟩ =
      spanContextToHeader ⟨tidEx, List.replicate 8 128, 1⟩ := by decide

end HttpTrace

